import Mathlib

/-!
Verification of the brand-guardian audit pipeline: a shallow embedding of
the LangGraph state schema (`backend/src/graph/state.py`), the two pipeline
nodes (`backend/src/graph/nodes.py`), and the video-indexer service
(`backend/src/services/video_indexer.py`), with theorems settling the
spec's claims about merge semantics, polling, extraction, and the two
stages' error handling.
-/

namespace BrandGuardian

/-! ### Data model (state.py) -/

/-- The `ComplianceIssue` TypedDict from `state.py`: one compliance finding. -/
structure ComplianceIssue where
  category : String
  description : String
  severity : String
  timestamp : Option String
deriving DecidableEq

/-- The `video_metadata` dict built by `extract_data` in `video_indexer.py`. -/
structure VideoMetadata where
  duration : Option String
  platform : String
  id : Option String
deriving DecidableEq

/-- The `VideoAuditState` TypedDict from `state.py`. Fields that a run may leave
unset are `Option`; the two `Annotated[..., operator.add]` channels
(`compliance_results`, `errors`) are plain lists accumulated by the graph. -/
structure VideoAuditState where
  video_url : String
  video_id : Option String := none
  region : Option String := none
  local_file_path : Option String := none
  video_metadata : Option VideoMetadata := none
  transcript : Option String := none
  ocr_text : Option (List String) := none
  detected_brands : Option (List String) := none
  compliance_results : List ComplianceIssue := []
  final_status : Option String := none
  final_report : Option String := none
  errors : List String := []
deriving DecidableEq

/-- A partial state update returned by a node: `some v` means the key is
present in the returned dict with value `v`; `none` means absent. -/
structure PartialUpdate where
  video_url : Option String := none
  video_id : Option String := none
  region : Option String := none
  local_file_path : Option String := none
  video_metadata : Option VideoMetadata := none
  transcript : Option String := none
  ocr_text : Option (List String) := none
  detected_brands : Option (List String) := none
  compliance_results : Option (List ComplianceIssue) := none
  final_status : Option String := none
  final_report : Option String := none
  errors : Option (List String) := none
deriving DecidableEq

/-- Overwrite channel: a key present in the update replaces the current
value; an absent key leaves it untouched. -/
def ow {α : Type} (upd cur : Option α) : Option α :=
  match upd with
  | some v => some v
  | none => cur

/-- The LangGraph accumulator for `VideoAuditState`: `compliance_results`
and `errors` are `Annotated[..., operator.add]` (concatenate), every other
key overwrites when present, and absent keys are left untouched. -/
def mergeState (s : VideoAuditState) (u : PartialUpdate) : VideoAuditState where
  video_url := (u.video_url).getD s.video_url
  video_id := ow u.video_id s.video_id
  region := ow u.region s.region
  local_file_path := ow u.local_file_path s.local_file_path
  video_metadata := ow u.video_metadata s.video_metadata
  transcript := ow u.transcript s.transcript
  ocr_text := ow u.ocr_text s.ocr_text
  detected_brands := ow u.detected_brands s.detected_brands
  compliance_results := s.compliance_results ++ (u.compliance_results).getD []
  final_status := ow u.final_status s.final_status
  final_report := ow u.final_report s.final_report
  errors := s.errors ++ (u.errors).getD []

/-! ### Raw analysis result (`video_indexer.py`, input of `extract_data`) -/

/-- One insights block as read by `process_block`: the `text` field of each
`transcript` item, the `text` field of each `ocr` item, and the `name`
field of each `brands` item (`none` models an absent field; `some ""`
models a present-but-empty one — both are falsy in the Python guard
`if item.get(...)`). An absent block, `insights_dict.get(..., [])`, is the
record with three empty lists. -/
structure Insights where
  transcript : List (Option String) := []
  ocr : List (Option String) := []
  brands : List (Option String) := []
deriving DecidableEq

/-- One element of the raw result's `videos` list; `v.get("insights", {})`
maps an absent block to the empty record. -/
structure VideoBlock where
  insights : Insights := {}
deriving DecidableEq

/-- The `summarizedInsights` block, read only for `durationText`. -/
structure SummarizedInsights where
  durationText : Option String := none
deriving DecidableEq

/-- The raw Video Indexer JSON as consumed by `extract_data`: top-level
`insights` (absent modelled as empty), the per-video list `videos`,
`summarizedInsights`, and the top-level `id`. -/
structure VIJson where
  insights : Insights := {}
  videos : List VideoBlock := []
  summarizedInsights : SummarizedInsights := {}
  id : Option String := none
deriving DecidableEq

/-! ### Job poller (`video_indexer.py`, `wait_for_processing`) -/

/-- The outcome of one iteration of the polling loop, as seen from the
external services: either an exception is raised while acquiring tokens or
issuing the status request (`raiseErr` — the code has no try/except around
these, so such an exception propagates), or the status request returns a
non-200 HTTP response (`non200` — retried after the wait), or it returns a
200 response whose JSON carries a `state` field and the raw index `data`. -/
inductive CheckResult where
  | raiseErr (msg : String)
  | non200 (text : String)
  | ok (state : String) (data : VIJson)
deriving DecidableEq

/-- Result of the polling loop over a canned finite sequence of check
outcomes: the loop returns the raw data, raises, or (model artifact for the
unbounded `while True`) exhausts the canned sequence still polling. -/
inductive PollResult where
  | done (data : VIJson)
  | raised (msg : String)
  | hung
deriving DecidableEq

/-- Exception message for the `Failed` terminal state. -/
def failedMsg (video_id : String) : String :=
  "Video processing failed in Azure Video Indexer for video ID: " ++ video_id

/-- Exception message for the `Quarantined` terminal state. -/
def quarantinedMsg : String :=
  "Video is quarantined in Azure Video Indexer (Copyright/Content Policy Violation)"

/-- Model of `wait_for_processing`: one canned `CheckResult` per loop iteration.
Returns the poll result together with the number of checks performed and
the number of 30-second sleeps executed. `Processed` returns the data;
`Failed` and `Quarantined` raise; a non-200 response sleeps and retries;
any other reported state sleeps and retries; an exception during token
acquisition or the request itself propagates (no handler in the loop). -/
def wait_for_processing (video_id : String) : List CheckResult → PollResult × Nat × Nat
  | [] => (PollResult.hung, 0, 0)
  | c :: rest =>
    match c with
    | CheckResult.raiseErr m => (PollResult.raised m, 1, 0)
    | CheckResult.non200 _ =>
      let r := wait_for_processing video_id rest
      (r.1, r.2.1 + 1, r.2.2 + 1)
    | CheckResult.ok st data =>
      if st = "Processed" then (PollResult.done data, 1, 0)
      else if st = "Failed" then (PollResult.raised (failedMsg video_id), 1, 0)
      else if st = "Quarantined" then (PollResult.raised quarantinedMsg, 1, 0)
      else
        let r := wait_for_processing video_id rest
        (r.1, r.2.1 + 1, r.2.2 + 1)

/-! ### Structured-insights extractor (`video_indexer.py`, `extract_data`) -/

/-- The Python truthiness guard `if item.get("text"): lines.append(...)`
applied to a whole item list: keep exactly the present, non-empty strings. -/
def truthyLines (items : List (Option String)) : List String :=
  items.filterMap (fun o =>
    match o with
    | some t => if t = "" then none else some t
    | none => none)

/-- The three shared accumulator lists of `extract_data`. -/
structure ExtractAcc where
  transcripts_lines : List String
  ocr_lines : List String
  brands_found : List String
deriving DecidableEq

/-- Model of `process_block`: appends, in order, each block's qualifying transcript
texts, OCR texts, and brand names to the three shared accumulators. -/
def process_block (acc : ExtractAcc) (insights : Insights) : ExtractAcc where
  transcripts_lines := acc.transcripts_lines ++ truthyLines insights.transcript
  ocr_lines := acc.ocr_lines ++ truthyLines insights.ocr
  brands_found := acc.brands_found ++ truthyLines insights.brands

/-- One insertion step of order-preserving deduplication: append an element
only when it is not already present. -/
def dedupStep (acc : List String) (x : String) : List String :=
  if acc.contains x then acc else acc ++ [x]

/-- Model of `list(dict.fromkeys(xs))`: order-preserving deduplication by a left
fold of `dedupStep` from the empty accumulator. -/
def dedupFirst (l : List String) : List String :=
  l.foldl dedupStep []

/-- Model of `extract_data`: processes the top-level insights block, then every
per-video block, then returns the space-joined deduplicated transcript,
the deduplicated OCR lines and brand names, and the metadata dict. -/
def extract_data (vi_json : VIJson) : PartialUpdate where
  transcript := some (String.intercalate " " (dedupFirst
    ((vi_json.videos.foldl (fun a v => process_block a v.insights)
      (process_block ⟨[], [], []⟩ vi_json.insights)).transcripts_lines)))
  ocr_text := some (dedupFirst
    ((vi_json.videos.foldl (fun a v => process_block a v.insights)
      (process_block ⟨[], [], []⟩ vi_json.insights)).ocr_lines))
  detected_brands := some (dedupFirst
    ((vi_json.videos.foldl (fun a v => process_block a v.insights)
      (process_block ⟨[], [], []⟩ vi_json.insights)).brands_found))
  video_metadata := some
    { duration := vi_json.summarizedInsights.durationText
      platform := "youtube"
      id := vi_json.id }

/-! ### URL validation (`nodes.py`, `index_video_node`) -/

/-- Does the character list start with `needle`? -/
def charListStartsWith : List Char → List Char → Bool
  | [], _ => true
  | _ :: _, [] => false
  | n :: ns, h :: hs => n = h && charListStartsWith ns hs

/-- Does `needle` occur as a contiguous run anywhere in the haystack? -/
def charListHasRun (needle : List Char) : List Char → Bool
  | [] => charListStartsWith needle []
  | h :: hs => charListStartsWith needle (h :: hs) || charListHasRun needle hs

/-- Python's `needle in hay` on strings: substring containment. -/
def strContainsSub (hay needle : String) : Bool :=
  charListHasRun needle.data hay.data

/-- The validation test of `index_video_node`:
`"youtube.com" in video_url or "youtu.be" in video_url`. -/
def supported_url (video_url : String) : Bool :=
  strContainsSub video_url "youtube.com" || strContainsSub video_url "youtu.be"

/-! ### Indexing stage (`nodes.py`, `index_video_node`) -/

/-- External calls a node can make, recorded for the short-circuit claims. -/
inductive ExtCall where
  | download
  | upload
  | remove
  | poll
  | retrieve
  | generate
deriving DecidableEq

/-- A fallible external action: returns a value or raises with a message. -/
inductive Outcome (α : Type) where
  | ok (a : α)
  | raise (msg : String)
deriving DecidableEq

/-- The environment of one Indexing run: what each external action would do
if invoked. `download` yields the local path `download_youtube_video`
returns; `upload` yields the Azure video id; `remove` is `os.remove` on
the local copy; `poll` is the canned status-check sequence consumed by
`wait_for_processing`. -/
structure IndexerEnv where
  download : Outcome String
  upload : Outcome String
  remove : Outcome Unit
  poll : List CheckResult
deriving DecidableEq

/-- The failure update of `index_video_node`'s `except` block. -/
def indexFailUpdate (msg : String) : PartialUpdate where
  errors := some [msg]
  final_status := some "FAIL"
  transcript := some ""
  ocr_text := some []

/-- The `ValueError` message for an unsupported video URL. -/
def unsupportedUrlMsg : String :=
  "Unsupported video URL. Only YouTube URLs are supported in this"

/-- Model of `index_video_node`: validate the URL, download, upload, delete the local
copy (guarded by `os.path.exists`), poll, extract; any exception is caught
and mapped to `indexFailUpdate`. Returns the update (`none` when the
unbounded polling loop never reaches a terminal state), the list of
external calls made, and whether the local media copy still exists when
the stage returns. -/
def index_video_node (state : VideoAuditState) (env : IndexerEnv) :
    Option PartialUpdate × List ExtCall × Bool :=
  if supported_url state.video_url then
    match env.download with
    | Outcome.raise m => (some (indexFailUpdate m), [ExtCall.download], false)
    | Outcome.ok _local_path =>
      match env.upload with
      | Outcome.raise m =>
        (some (indexFailUpdate m), [ExtCall.download, ExtCall.upload], true)
      | Outcome.ok azure_video_id =>
        match env.remove with
        | Outcome.raise m =>
          (some (indexFailUpdate m),
           [ExtCall.download, ExtCall.upload, ExtCall.remove], true)
        | Outcome.ok _ =>
          match (wait_for_processing azure_video_id env.poll).1 with
          | PollResult.raised m =>
            (some (indexFailUpdate m),
             [ExtCall.download, ExtCall.upload, ExtCall.remove, ExtCall.poll], false)
          | PollResult.hung =>
            (none,
             [ExtCall.download, ExtCall.upload, ExtCall.remove, ExtCall.poll], false)
          | PollResult.done data =>
            (some (extract_data data),
             [ExtCall.download, ExtCall.upload, ExtCall.remove, ExtCall.poll], false)
  else
    (some (indexFailUpdate unsupportedUrlMsg), [], false)

/-! ### Audit stage (`nodes.py`, `compliance_audit_node`) -/

/-- The parsed generative response as a JSON object: the three keys read by
`audit_data.get(...)`, each `none` when absent. -/
structure AuditJson where
  status : Option String := none
  final_report : Option String := none
  compliance_results : Option (List ComplianceIssue) := none
deriving DecidableEq

/-- The outcome of the `try` block of `compliance_audit_node`: either the
generative call returned text whose extracted JSON parsed into an object
(`parsed`, carrying the raw response text), or parsing raised
`json.JSONDecodeError` (`parseError`, carrying the raw response text), or
some other exception was raised (`raiseOther`, e.g. the generative call
itself failing). -/
inductive GenOutcome where
  | parsed (j : AuditJson) (raw : String)
  | parseError (raw : String)
  | raiseOther (msg : String)
deriving DecidableEq

/-- The environment of one Audit run: the retrieval result (text of the
top-5 documents) and the generation/parse outcome. -/
structure AuditEnv where
  docs : List String
  gen : GenOutcome
deriving DecidableEq

/-- The fixed report of the empty-content short-circuit. -/
def noContentReport : String :=
  "Audit failed: No speech or text content could be extracted from this video."

/-- Model of `compliance_audit_node`: short-circuit when both transcript and OCR are
falsy; otherwise retrieve, generate, robustly parse, and map the parsed
object's keys with `.get` defaults; a parse error or any other exception
is caught and mapped to a fail-closed update. Also returns the external
calls made. -/
def compliance_audit_node (state : VideoAuditState) (env : AuditEnv) :
    PartialUpdate × List ExtCall :=
  if state.transcript.getD "" = "" && (state.ocr_text.getD []).isEmpty then
    ({ final_status := some "FAIL", final_report := some noContentReport }, [])
  else
    match env.gen with
    | GenOutcome.parsed j _raw =>
      ({ compliance_results := some (j.compliance_results.getD [])
         final_status := some (j.status.getD "FAIL")
         final_report := some (j.final_report.getD "No Report Generated.") },
       [ExtCall.retrieve, ExtCall.generate])
    | GenOutcome.parseError raw =>
      ({ errors := some ["Failed to parse AI response. Check logs for raw output."]
         final_status := some "FAIL"
         final_report := some ("AI Parsing Error. Raw output start: "
           ++ raw.take 100 ++ "...") },
       [ExtCall.retrieve, ExtCall.generate])
    | GenOutcome.raiseOther m =>
      ({ errors := some [m], final_status := some "FAIL" },
       [ExtCall.retrieve, ExtCall.generate])

/-! ### Pipeline driver (`workflow.py`) -/

/-- The compiled LangGraph: START → indexer → auditor → END, merging each
node's partial update into the state with `mergeState`. `none` models the
run that never terminates because the polling loop hangs. -/
def run_pipeline (init : VideoAuditState) (ienv : IndexerEnv) (aenv : AuditEnv) :
    Option VideoAuditState :=
  match (index_video_node init ienv).1 with
  | none => none
  | some u1 =>
    let s1 := mergeState init u1
    some (mergeState s1 (compliance_audit_node s1 aenv).1)

/-! ### Concrete example inputs used by witnesses and counterexamples -/

def cexVI : VIJson := { insights := { transcript := [some "hello"] } }

def cexInit : VideoAuditState := { video_url := "https://youtube.com/watch?v=a" }

def cexIEnv : IndexerEnv where
  download := Outcome.ok "temp_audit_video.mp4"
  upload := Outcome.ok "azid"
  remove := Outcome.ok ()
  poll := [CheckResult.ok "Processed" cexVI]

def cexAEnv : AuditEnv where
  docs := []
  gen := GenOutcome.raiseOther "Request timed out"

def witAEnv : AuditEnv where
  docs := ["rule"]
  gen := GenOutcome.parsed
    { status := some "PASS", final_report := some "ok",
      compliance_results := some [] } "raw"

/-- Declarative first-occurrence-order deduplication: keep the head, drop
its later duplicates, recurse. The spec-side reference implementation that
`dedupFirst` (the fold translated from `dict.fromkeys`) is proved equal to. -/
def dedupFirstRec : List String → List String
  | [] => []
  | x :: xs => x :: dedupFirstRec (xs.filter (fun y => !(y == x)))
termination_by l => l.length
decreasing_by
  simp only [List.length_cons]
  exact Nat.lt_succ_of_le (List.length_filter_le _ _)

/-- Declarative harvest of one field: the qualifying lines of the top-level
insights block followed by those of every per-video block, in order. -/
def harvest (f : Insights → List (Option String)) (j : VIJson) : List String :=
  truthyLines (f j.insights)
    ++ (j.videos.map (fun v => truthyLines (f v.insights))).flatten

/-! ### Claim C3: accumulator merge semantics -/

/-- C3: the accumulator concatenates the update's `compliance_results` and
`errors` onto the existing sequences in order, overwrites every other
present field with the update's value, leaves every absent field untouched;
merging findings `[f1]` then `[f2]` yields `... ++ [f1, f2]`, and merging
`final_status = FAIL` then `final_status = PASS` yields `PASS`. -/
theorem merge_semantics (s : VideoAuditState) (u : PartialUpdate) :
    ((mergeState s u).compliance_results
        = s.compliance_results ++ (u.compliance_results).getD []
      ∧ (mergeState s u).errors = s.errors ++ (u.errors).getD []
      ∧ (u.compliance_results = none →
          (mergeState s u).compliance_results = s.compliance_results)
      ∧ (u.errors = none → (mergeState s u).errors = s.errors))
    ∧ ((∀ v, u.video_url = some v → (mergeState s u).video_url = v)
      ∧ (∀ v, u.video_id = some v → (mergeState s u).video_id = some v)
      ∧ (∀ v, u.region = some v → (mergeState s u).region = some v)
      ∧ (∀ v, u.local_file_path = some v →
          (mergeState s u).local_file_path = some v)
      ∧ (∀ v, u.video_metadata = some v →
          (mergeState s u).video_metadata = some v)
      ∧ (∀ v, u.transcript = some v → (mergeState s u).transcript = some v)
      ∧ (∀ v, u.ocr_text = some v → (mergeState s u).ocr_text = some v)
      ∧ (∀ v, u.detected_brands = some v →
          (mergeState s u).detected_brands = some v)
      ∧ (∀ v, u.final_status = some v → (mergeState s u).final_status = some v)
      ∧ (∀ v, u.final_report = some v → (mergeState s u).final_report = some v))
    ∧ ((u.video_url = none → (mergeState s u).video_url = s.video_url)
      ∧ (u.video_id = none → (mergeState s u).video_id = s.video_id)
      ∧ (u.region = none → (mergeState s u).region = s.region)
      ∧ (u.local_file_path = none →
          (mergeState s u).local_file_path = s.local_file_path)
      ∧ (u.video_metadata = none →
          (mergeState s u).video_metadata = s.video_metadata)
      ∧ (u.transcript = none → (mergeState s u).transcript = s.transcript)
      ∧ (u.ocr_text = none → (mergeState s u).ocr_text = s.ocr_text)
      ∧ (u.detected_brands = none →
          (mergeState s u).detected_brands = s.detected_brands)
      ∧ (u.final_status = none → (mergeState s u).final_status = s.final_status)
      ∧ (u.final_report = none → (mergeState s u).final_report = s.final_report))
    ∧ (∀ f1 f2 : ComplianceIssue,
        (mergeState (mergeState s { compliance_results := some [f1] })
            { compliance_results := some [f2] }).compliance_results
          = s.compliance_results ++ [f1, f2])
    ∧ (mergeState (mergeState s { final_status := some "FAIL" })
        { final_status := some "PASS" }).final_status = some "PASS" := by
  repeat' apply And.intro
  all_goals
    first
    | rfl
    | (intro v h; simp [mergeState, ow, h])
    | (intro h; simp [mergeState, ow, h])
    | simp [mergeState, ow]

/-- C3 witness: the merge rules applied at a concrete state and update. -/
theorem merge_semantics_witness :
    (mergeState { video_url := "u" } { final_status := some "PASS" }).final_status
      = some "PASS" :=
  ((merge_semantics { video_url := "u" }
      { final_status := some "PASS" }).2.1.2.2.2.2.2.2.2.2.1) "PASS" rfl

/-! ### Claim C4: poller terminal-state mapping -/

/-- C4: the poller returns the raw data exactly on `Processed`, raises a
fatal message on `Failed`, raises a distinct quarantine message on
`Quarantined`, and on any other reported state sleeps once and checks
again; the canned sequence `[Processing, Processing, Processed]` succeeds
after exactly 3 checks and 2 interleaved waits, and `Quarantined` on the
first check raises immediately. -/
theorem poller_terminal_state_mapping (vid st : String) (d : VIJson)
    (rest : List CheckResult)
    (hst : st ≠ "Processed" ∧ st ≠ "Failed" ∧ st ≠ "Quarantined") :
    wait_for_processing vid (CheckResult.ok "Processed" d :: rest)
        = (PollResult.done d, 1, 0)
    ∧ wait_for_processing vid (CheckResult.ok "Failed" d :: rest)
        = (PollResult.raised (failedMsg vid), 1, 0)
    ∧ wait_for_processing vid (CheckResult.ok "Quarantined" d :: rest)
        = (PollResult.raised quarantinedMsg, 1, 0)
    ∧ quarantinedMsg ≠ failedMsg vid
    ∧ wait_for_processing vid (CheckResult.ok st d :: rest)
        = ((wait_for_processing vid rest).1,
           (wait_for_processing vid rest).2.1 + 1,
           (wait_for_processing vid rest).2.2 + 1)
    ∧ wait_for_processing vid
        [CheckResult.ok "Processing" d, CheckResult.ok "Processing" d,
         CheckResult.ok "Processed" d]
        = (PollResult.done d, 3, 2)
    ∧ wait_for_processing vid [CheckResult.ok "Quarantined" d]
        = (PollResult.raised quarantinedMsg, 1, 0) := by
  obtain ⟨h1, h2, h3⟩ := hst
  refine ⟨rfl, rfl, rfl, ?_, ?_, rfl, rfl⟩
  · intro h
    have hd := congrArg String.data h
    have : (failedMsg vid).data
        = "Video processing failed in Azure Video Indexer for video ID: ".data
          ++ vid.data := by
      cases vid
      rfl
    rw [this] at hd
    have h7 : quarantinedMsg.data.take 7
        = ("Video processing failed in Azure Video Indexer for video ID: ".data
            ++ vid.data).take 7 := by rw [hd]
    rw [List.take_append_of_le_length (by decide)] at h7
    revert h7
    decide
  · simp [wait_for_processing, h1, h2, h3]

/-- C4 witness: the terminal-state mapping at `Processing` as the
non-terminal state, on a concrete canned tail. -/
theorem poller_terminal_state_mapping_witness :
    wait_for_processing "v1"
        [CheckResult.ok "Processing" {}, CheckResult.ok "Processing" {},
         CheckResult.ok "Processed" {}]
      = (PollResult.done {}, 3, 2) :=
  (poller_terminal_state_mapping "v1" "Processing" {} []
    (by refine ⟨?_, ?_, ?_⟩ <;> decide)).2.2.2.2.2.1

/-! ### Claim C5: transient-error handling in the poller (corrected) -/

/-- C5 counterexample: an exception while checking status (token acquisition
or the request itself) is NOT treated as transient — it propagates, so the
poller raises on a state that is neither `Failed` nor `Quarantined`. -/
theorem poller_raises_on_transport_error_cex :
    wait_for_processing "v1" [CheckResult.raiseErr "connection reset"]
      = (PollResult.raised "connection reset", 1, 0) := rfl

/-- C5 amended: only a non-200 HTTP status response on the status request is
treated as transient (retried after the fixed wait interval); an exception
raised during token acquisition or by the status request itself propagates
out of the poller immediately. -/
theorem poller_error_classification (vid text m : String)
    (rest : List CheckResult) :
    wait_for_processing vid (CheckResult.non200 text :: rest)
        = ((wait_for_processing vid rest).1,
           (wait_for_processing vid rest).2.1 + 1,
           (wait_for_processing vid rest).2.2 + 1)
    ∧ wait_for_processing vid (CheckResult.raiseErr m :: rest)
        = (PollResult.raised m, 1, 0) :=
  ⟨rfl, rfl⟩

/-! ### Substring characterization lemmas -/

theorem charListStartsWith_iff (n h : List Char) :
    charListStartsWith n h = true ↔ n <+: h := by
  induction n generalizing h with
  | nil => simp [charListStartsWith]
  | cons a ns ih =>
    cases h with
    | nil => simp [charListStartsWith]
    | cons b hs =>
      rw [List.cons_prefix_cons]
      simp [charListStartsWith, ih]

theorem charListHasRun_iff (n h : List Char) :
    charListHasRun n h = true ↔ n <:+: h := by
  induction h with
  | nil =>
    cases n with
    | nil => simp [charListHasRun, charListStartsWith]
    | cons a ns => simp [charListHasRun, charListStartsWith]
  | cons b hs ih =>
    rw [List.infix_cons_iff]
    simp [charListHasRun, charListStartsWith_iff, ih]

theorem strContainsSub_iff (hay needle : String) :
    strContainsSub hay needle = true ↔ needle.data <:+: hay.data :=
  charListHasRun_iff needle.data hay.data

/-! ### Claim C10: validation is bare substring matching -/

/-- C10: the Indexing stage treats a reference as supported iff
`"youtube.com"` or `"youtu.be"` occurs as a substring of it, download is
attempted exactly on supported references, and a reference on another host
whose text merely contains such a substring passes validation. -/
theorem indexer_validation_substring_semantics (state : VideoAuditState)
    (env : IndexerEnv) :
    (supported_url state.video_url = true ↔
      ("youtube.com".data <:+: state.video_url.data
        ∨ "youtu.be".data <:+: state.video_url.data))
    ∧ (ExtCall.download ∈ (index_video_node state env).2.1 ↔
        supported_url state.video_url = true)
    ∧ supported_url "https://evil.example/watch?src=youtube.com" = true := by
  refine ⟨?_, ?_, by decide⟩
  · simp [supported_url, strContainsSub_iff]
  · by_cases hs : supported_url state.video_url = true
    · simp only [index_video_node, hs, if_true, iff_true]
      rcases env.download with p | m
      · rcases env.upload with vidId | m
        · rcases env.remove with u | m
          · rcases hr : (wait_for_processing vidId env.poll).1 <;> simp [hr]
          · simp
        · simp
      · simp
    · simp [index_video_node, hs]

/-! ### Claim C6: Audit short-circuit on empty content -/

/-- C6: when both the transcript and the on-screen text are empty, the Audit
stage returns `final_status = FAIL` with the fixed explanatory report,
makes no retrieval or generation call, and appends nothing to `errors`. -/
theorem audit_empty_content_short_circuit (state : VideoAuditState)
    (env : AuditEnv)
    (ht : state.transcript.getD "" = "")
    (ho : state.ocr_text.getD [] = []) :
    compliance_audit_node state env
      = ({ final_status := some "FAIL", final_report := some noContentReport }, [])
    ∧ ((compliance_audit_node state env).1).final_status = some "FAIL"
    ∧ ((compliance_audit_node state env).1).final_report = some noContentReport
    ∧ ((compliance_audit_node state env).1).errors = none
    ∧ (compliance_audit_node state env).2 = [] := by
  have hiso : (state.ocr_text.getD []).isEmpty = true := by simp [ho]
  simp [compliance_audit_node, ht, hiso]

/-- C6 witness: the short-circuit at a concrete empty-content state. -/
theorem audit_empty_content_short_circuit_witness :
    compliance_audit_node { video_url := "u" }
        { docs := [], gen := GenOutcome.raiseOther "boom" }
      = ({ final_status := some "FAIL", final_report := some noContentReport }, []) :=
  (audit_empty_content_short_circuit { video_url := "u" }
    { docs := [], gen := GenOutcome.raiseOther "boom" } rfl rfl).1

/-! ### Claim C8: Indexing short-circuit on unsupported reference -/

/-- C8: an unrecognized video reference makes the Indexing stage return the
descriptive failure update — `errors` populated with the `ValueError`
message and `final_status = FAIL` — with no external call attempted. -/
theorem indexer_unsupported_reference_short_circuit (state : VideoAuditState)
    (env : IndexerEnv) (h : supported_url state.video_url = false) :
    index_video_node state env
      = (some (indexFailUpdate unsupportedUrlMsg), [], false)
    ∧ (indexFailUpdate unsupportedUrlMsg).errors = some [unsupportedUrlMsg]
    ∧ (indexFailUpdate unsupportedUrlMsg).final_status = some "FAIL"
    ∧ [unsupportedUrlMsg] ≠ ([] : List String) := by
  refine ⟨by simp [index_video_node, h], rfl, rfl, by simp⟩

/-- C8 witness: the short-circuit at a concrete non-YouTube reference. -/
theorem indexer_unsupported_reference_short_circuit_witness :
    index_video_node { video_url := "https://vimeo.com/123" }
        { download := Outcome.ok "p", upload := Outcome.ok "id",
          remove := Outcome.ok (), poll := [] }
      = (some (indexFailUpdate unsupportedUrlMsg), [], false) :=
  (indexer_unsupported_reference_short_circuit
    { video_url := "https://vimeo.com/123" }
    { download := Outcome.ok "p", upload := Outcome.ok "id",
      remove := Outcome.ok (), poll := [] } (by decide)).1

/-! ### Claim C1: Audit mapping of a successfully parsed response (corrected) -/

/-- C1 counterexample: a parsed response whose `status` value is the
unrecognized string `"MAYBE"` is mapped verbatim to `final_status`, not
defaulted to `FAIL`. -/
theorem audit_status_passthrough_cex :
    ((compliance_audit_node
        { video_url := "u", transcript := some "hello" }
        { docs := [],
          gen := GenOutcome.parsed { status := some "MAYBE" } "raw" }).1).final_status
      = some "MAYBE"
    ∧ ((compliance_audit_node
        { video_url := "u", transcript := some "hello" }
        { docs := [],
          gen := GenOutcome.parsed { status := some "MAYBE" } "raw" }).1).final_status
      ≠ some "FAIL" :=
  ⟨rfl, by decide⟩

/-- C1 amended: on a successfully parsed JSON-object response, Audit maps
`status` verbatim to `final_status`, defaulting to `FAIL` only when the
field is absent; maps `final_report` with the fixed placeholder default
and `compliance_results` with the empty default; and the update carries a
`PASS` verdict iff the response's `status` field is exactly `"PASS"`. -/
theorem audit_parse_success_mapping (state : VideoAuditState) (env : AuditEnv)
    (j : AuditJson) (raw : String)
    (hc : ¬(state.transcript.getD "" = "" ∧ state.ocr_text.getD [] = []))
    (hg : env.gen = GenOutcome.parsed j raw) :
    (compliance_audit_node state env).1
      = { compliance_results := some (j.compliance_results.getD [])
          final_status := some (j.status.getD "FAIL")
          final_report := some (j.final_report.getD "No Report Generated.") }
    ∧ ((compliance_audit_node state env).1.final_status = some "PASS"
        ↔ j.status = some "PASS") := by
  have hb : (decide (state.transcript.getD "" = "")
      && (state.ocr_text.getD []).isEmpty) = false := by
    rcases not_and_or.mp hc with h | h
    · simp [h]
    · simp [List.isEmpty_iff, h]
  constructor
  · simp [compliance_audit_node, hb, hg]
  · rcases hst : j.status with _ | v <;>
      simp [compliance_audit_node, hb, hg, hst]

/-- C1 witness: the amended mapping at a concrete parsed `PASS` response. -/
theorem audit_parse_success_mapping_witness :
    (compliance_audit_node { video_url := "u", transcript := some "hello" }
        { docs := ["rule"],
          gen := GenOutcome.parsed { status := some "PASS" } "raw" }).1
      = { compliance_results := some []
          final_status := some "PASS"
          final_report := some "No Report Generated." } :=
  (audit_parse_success_mapping
    { video_url := "u", transcript := some "hello" }
    { docs := ["rule"], gen := GenOutcome.parsed { status := some "PASS" } "raw" }
    { status := some "PASS" } "raw" (by simp) rfl).1

/-! ### Claim C9: local media cleanup (corrected) -/

/-- C9 counterexample: acquisition succeeds, submission fails, and the stage
returns with the local media copy still present — the early failure path
does not release it. -/
theorem indexer_leak_on_upload_failure_cex :
    (index_video_node { video_url := "https://youtube.com/watch?v=a" }
        { download := Outcome.ok "temp_audit_video.mp4",
          upload := Outcome.raise "HTTP 500",
          remove := Outcome.ok (), poll := [] }).2.2 = true := by
  decide

/-- C9 amended: the local copy is deleted only at the single deletion point
right after submission succeeds (and then stays deleted on every later
polling outcome); on submission failure it is not released, and a deletion
failure is caught by the stage's generic handler and converted into a
stage failure update rather than merely logged. -/
theorem indexer_cleanup_characterization (state : VideoAuditState)
    (env : IndexerEnv) (p : String)
    (hsup : supported_url state.video_url = true)
    (hdl : env.download = Outcome.ok p) :
    ((index_video_node state env).2.2 = true
      ↔ ((∃ m, env.upload = Outcome.raise m)
          ∨ ((∃ vidId, env.upload = Outcome.ok vidId)
              ∧ ∃ m, env.remove = Outcome.raise m)))
    ∧ (∀ m, env.remove = Outcome.raise m →
        (∃ vidId, env.upload = Outcome.ok vidId) →
        (index_video_node state env).1 = some (indexFailUpdate m)) := by
  rcases hu : env.upload with vidId | m
  · rcases hrem : env.remove with u | m
    · rcases hp : (wait_for_processing vidId env.poll).1 <;>
        simp [index_video_node, hsup, hdl, hu, hrem, hp]
    · simp [index_video_node, hsup, hdl, hu, hrem]
  · simp [index_video_node, hsup, hdl, hu]

/-- C9 witness: a deletion failure after a successful submission becomes a
stage failure update, at concrete inputs. -/
theorem indexer_cleanup_characterization_witness :
    (index_video_node { video_url := "https://youtube.com/watch?v=a" }
        { download := Outcome.ok "temp_audit_video.mp4",
          upload := Outcome.ok "azid",
          remove := Outcome.raise "rm failed", poll := [] }).1
      = some (indexFailUpdate "rm failed") :=
  ((indexer_cleanup_characterization
      { video_url := "https://youtube.com/watch?v=a" }
      { download := Outcome.ok "temp_audit_video.mp4",
        upload := Outcome.ok "azid",
        remove := Outcome.raise "rm failed", poll := [] }
      "temp_audit_video.mp4" (by decide) rfl).2) "rm failed" rfl ⟨"azid", rfl⟩

/-! ### Claim C7: extractor characterization -/

theorem dedupFirstRec_nil : dedupFirstRec [] = [] := by
  rw [dedupFirstRec]

theorem dedupFirstRec_cons (x : String) (xs : List String) :
    dedupFirstRec (x :: xs) = x :: dedupFirstRec (xs.filter (fun y => !(y == x))) := by
  rw [dedupFirstRec]

theorem dedupStep_of_mem {acc : List String} {a : String} (h : a ∈ acc) :
    dedupStep acc a = acc := by
  simp [dedupStep, h]

theorem foldl_dedupStep_filter (x : String) :
    ∀ (xs acc : List String), x ∈ acc →
      xs.foldl dedupStep acc
        = (xs.filter (fun y => !(y == x))).foldl dedupStep acc := by
  intro xs
  induction xs with
  | nil => intro acc _; rfl
  | cons y ys ih =>
    intro acc hx
    by_cases hxy : y = x
    · subst hxy
      rw [List.foldl_cons, dedupStep_of_mem hx]
      have hdrop : (y :: ys).filter (fun z => !(z == y))
          = ys.filter (fun z => !(z == y)) := by
        simp [List.filter_cons]
      rw [hdrop]
      exact ih acc hx
    · have hkeep : (y :: ys).filter (fun z => !(z == x))
          = y :: ys.filter (fun z => !(z == x)) := by
        simp [List.filter_cons, hxy]
      rw [hkeep, List.foldl_cons, List.foldl_cons]
      have hx' : x ∈ dedupStep acc y := by
        unfold dedupStep
        split
        · exact hx
        · exact List.mem_append_left _ hx
      exact ih _ hx'

theorem foldl_dedupStep_head (x : String) :
    ∀ (ys acc : List String), x ∉ ys →
      ys.foldl dedupStep (x :: acc) = x :: ys.foldl dedupStep acc := by
  intro ys
  induction ys with
  | nil => intro acc _; rfl
  | cons y ys ih =>
    intro acc hx
    have hyx : (y == x) = false := by
      simp only [beq_eq_false_iff_ne, ne_eq]
      intro h
      exact hx (by simp [h])
    have hstep : dedupStep (x :: acc) y = x :: dedupStep acc y := by
      unfold dedupStep
      rw [List.contains_cons, hyx, Bool.false_or]
      split <;> rfl
    rw [List.foldl_cons, List.foldl_cons, hstep,
      ih _ (fun h => hx (List.mem_cons_of_mem _ h))]

theorem dedupFirst_eq_rec_aux :
    ∀ (n : Nat) (l : List String), l.length ≤ n → dedupFirst l = dedupFirstRec l := by
  intro n
  induction n with
  | zero =>
    intro l h
    have hl : l = [] := List.eq_nil_of_length_eq_zero (Nat.le_zero.mp h)
    subst hl
    rw [dedupFirstRec_nil]
    rfl
  | succ n ih =>
    intro l h
    cases l with
    | nil => rw [dedupFirstRec_nil]; rfl
    | cons x xs =>
      have hxs : xs.length ≤ n := by simpa using h
      have hlen : (xs.filter (fun y => !(y == x))).length ≤ n :=
        le_trans (List.length_filter_le _ _) hxs
      have h2 : xs.foldl dedupStep [x]
          = (xs.filter (fun y => !(y == x))).foldl dedupStep [x] :=
        foldl_dedupStep_filter x xs [x] (by simp)
      have hxnot : x ∉ xs.filter (fun y => !(y == x)) := by
        intro hmem
        have := (List.mem_filter.mp hmem).2
        simp at this
      have h3 : (xs.filter (fun y => !(y == x))).foldl dedupStep [x]
          = x :: (xs.filter (fun y => !(y == x))).foldl dedupStep [] :=
        foldl_dedupStep_head x _ [] hxnot
      calc dedupFirst (x :: xs)
          = xs.foldl dedupStep [x] := rfl
        _ = x :: (xs.filter (fun y => !(y == x))).foldl dedupStep [] := by
            rw [h2, h3]
        _ = x :: dedupFirstRec (xs.filter (fun y => !(y == x))) := by
            rw [show (xs.filter (fun y => !(y == x))).foldl dedupStep []
                = dedupFirst (xs.filter (fun y => !(y == x))) from rfl, ih _ hlen]
        _ = dedupFirstRec (x :: xs) := (dedupFirstRec_cons x xs).symm

/-- The imperative fold equals the declarative first-occurrence dedup. -/
theorem dedupFirst_eq_rec (l : List String) : dedupFirst l = dedupFirstRec l :=
  dedupFirst_eq_rec_aux l.length l le_rfl

theorem mem_dedupFirstRec_aux :
    ∀ (n : Nat) (l : List String), l.length ≤ n →
      ∀ y, y ∈ dedupFirstRec l ↔ y ∈ l := by
  intro n
  induction n with
  | zero =>
    intro l h y
    have hl : l = [] := List.eq_nil_of_length_eq_zero (Nat.le_zero.mp h)
    subst hl
    rw [dedupFirstRec_nil]
  | succ n ih =>
    intro l h y
    cases l with
    | nil => rw [dedupFirstRec_nil]
    | cons x xs =>
      have hxs : xs.length ≤ n := by simpa using h
      have hlen : (xs.filter (fun y => !(y == x))).length ≤ n :=
        le_trans (List.length_filter_le _ _) hxs
      rw [dedupFirstRec_cons, List.mem_cons, List.mem_cons, ih _ hlen y]
      constructor
      · rintro (h | h)
        · exact Or.inl h
        · exact Or.inr (List.mem_of_mem_filter h)
      · rintro (h | h)
        · exact Or.inl h
        · by_cases hyx : y = x
          · exact Or.inl hyx
          · exact Or.inr (List.mem_filter.mpr ⟨h, by simp [hyx]⟩)

theorem mem_dedupFirstRec (l : List String) (y : String) :
    y ∈ dedupFirstRec l ↔ y ∈ l :=
  mem_dedupFirstRec_aux l.length l le_rfl y

theorem nodup_dedupFirstRec_aux :
    ∀ (n : Nat) (l : List String), l.length ≤ n → (dedupFirstRec l).Nodup := by
  intro n
  induction n with
  | zero =>
    intro l h
    have hl : l = [] := List.eq_nil_of_length_eq_zero (Nat.le_zero.mp h)
    subst hl
    rw [dedupFirstRec_nil]
    exact List.nodup_nil
  | succ n ih =>
    intro l h
    cases l with
    | nil => rw [dedupFirstRec_nil]; exact List.nodup_nil
    | cons x xs =>
      have hxs : xs.length ≤ n := by simpa using h
      have hlen : (xs.filter (fun y => !(y == x))).length ≤ n :=
        le_trans (List.length_filter_le _ _) hxs
      rw [dedupFirstRec_cons, List.nodup_cons]
      refine ⟨?_, ih _ hlen⟩
      intro hmem
      have hfil := (mem_dedupFirstRec _ x).mp hmem
      have := (List.mem_filter.mp hfil).2
      simp at this

theorem nodup_dedupFirstRec (l : List String) : (dedupFirstRec l).Nodup :=
  nodup_dedupFirstRec_aux l.length l le_rfl

theorem dedupFirstRec_sublist_aux :
    ∀ (n : Nat) (l : List String), l.length ≤ n →
      List.Sublist (dedupFirstRec l) l := by
  intro n
  induction n with
  | zero =>
    intro l h
    have hl : l = [] := List.eq_nil_of_length_eq_zero (Nat.le_zero.mp h)
    subst hl
    rw [dedupFirstRec_nil]
  | succ n ih =>
    intro l h
    cases l with
    | nil => rw [dedupFirstRec_nil]
    | cons x xs =>
      have hxs : xs.length ≤ n := by simpa using h
      have hlen : (xs.filter (fun y => !(y == x))).length ≤ n :=
        le_trans (List.length_filter_le _ _) hxs
      rw [dedupFirstRec_cons]
      exact List.Sublist.cons₂ x ((ih _ hlen).trans (List.filter_sublist _))

theorem dedupFirstRec_sublist (l : List String) :
    List.Sublist (dedupFirstRec l) l :=
  dedupFirstRec_sublist_aux l.length l le_rfl

theorem foldl_process_block (videos : List VideoBlock) :
    ∀ acc : ExtractAcc,
      videos.foldl (fun a v => process_block a v.insights) acc
        = { transcripts_lines := acc.transcripts_lines
              ++ (videos.map (fun v => truthyLines v.insights.transcript)).flatten
            ocr_lines := acc.ocr_lines
              ++ (videos.map (fun v => truthyLines v.insights.ocr)).flatten
            brands_found := acc.brands_found
              ++ (videos.map (fun v => truthyLines v.insights.brands)).flatten } := by
  induction videos with
  | nil => intro acc; simp
  | cons v vs ih =>
    intro acc
    rw [List.foldl_cons, ih]
    simp [process_block]

/-- C7: the extractor harvests spoken lines, on-screen text lines, and
detected-mark names from the top-level insights and every per-segment
insights block (keeping only present, non-empty fields), returns the
transcript as the space-joined first-occurrence-order-deduplicated spoken
lines and the other two as first-occurrence-order-deduplicated sequences;
deduplication is exact-match and `["A","B","A","C","B"]` yields
`["A","B","C"]`. -/
theorem extract_data_characterization (j : VIJson) (l : List String) :
    (extract_data j).transcript
      = some (String.intercalate " "
          (dedupFirstRec (harvest Insights.transcript j)))
    ∧ (extract_data j).ocr_text
      = some (dedupFirstRec (harvest Insights.ocr j))
    ∧ (extract_data j).detected_brands
      = some (dedupFirstRec (harvest Insights.brands j))
    ∧ dedupFirst l = dedupFirstRec l
    ∧ (dedupFirst l).Nodup
    ∧ (∀ x, x ∈ dedupFirst l ↔ x ∈ l)
    ∧ List.Sublist (dedupFirst l) l
    ∧ dedupFirst ["A", "B", "A", "C", "B"] = ["A", "B", "C"] := by
  have hfold := foldl_process_block j.videos (process_block ⟨[], [], []⟩ j.insights)
  refine ⟨?_, ?_, ?_, dedupFirst_eq_rec l, ?_, ?_, ?_, by decide⟩
  · simp only [extract_data]
    rw [hfold]
    simp [process_block, harvest, dedupFirst_eq_rec]
  · simp only [extract_data]
    rw [hfold]
    simp [process_block, harvest, dedupFirst_eq_rec]
  · simp only [extract_data]
    rw [hfold]
    simp [process_block, harvest, dedupFirst_eq_rec]
  · rw [dedupFirst_eq_rec]
    exact nodup_dedupFirstRec l
  · intro x
    rw [dedupFirst_eq_rec]
    exact mem_dedupFirstRec l x
  · rw [dedupFirst_eq_rec]
    exact dedupFirstRec_sublist l

/-! ### Claim C2: final state at pipeline end (corrected) -/

/-- C2 counterexample: Indexing succeeds with non-empty content and the
generative call raises; the pipeline ends with `final_status = FAIL` but no
report string at all — the generation-exception path supplies none. -/
theorem pipeline_missing_report_cex :
    (run_pipeline cexInit cexIEnv cexAEnv).map VideoAuditState.final_report
      = some none
    ∧ (run_pipeline cexInit cexIEnv cexAEnv).map VideoAuditState.final_status
      = some (some "FAIL") := by
  constructor
  · decide
  · decide

theorem audit_update_cases (st : VideoAuditState) (aenv : AuditEnv) :
    (((compliance_audit_node st aenv).1).final_status = some "FAIL"
      ∨ ∃ j raw, aenv.gen = GenOutcome.parsed j raw
          ∧ ((compliance_audit_node st aenv).1).final_status
              = some (j.status.getD "FAIL"))
    ∧ (((compliance_audit_node st aenv).1).final_report = none →
        ∃ m, aenv.gen = GenOutcome.raiseOther m) := by
  unfold compliance_audit_node
  split
  · simp
  · cases hg : aenv.gen with
    | parsed j raw => exact ⟨Or.inr ⟨j, raw, rfl, rfl⟩, by simp⟩
    | parseError raw => simp
    | raiseOther m => exact ⟨Or.inl rfl, fun _ => ⟨m, rfl⟩⟩

theorem ow_eq_none {α : Type} {a b : Option α} :
    ow a b = none ↔ a = none ∧ b = none := by
  cases a <;> simp [ow]

theorem mergeState_final_status (s : VideoAuditState) (u : PartialUpdate) :
    (mergeState s u).final_status = ow u.final_status s.final_status := rfl

theorem mergeState_final_report (s : VideoAuditState) (u : PartialUpdate) :
    (mergeState s u).final_report = ow u.final_report s.final_report := rfl

/-- C2 amended: whenever the pipeline terminates, `final_status` is never
left unset: it is `FAIL` on every failure path, and on a successfully
parsed Audit response it is the response's `status` value verbatim
(`FAIL` when absent) — so it is `PASS`/`FAIL` only as far as the response
says so; a report string is present whenever the initial state carried one
or the run did not end in the Audit generation-exception path — that one
path sets no report. -/
theorem pipeline_final_state_characterization (init : VideoAuditState)
    (ienv : IndexerEnv) (aenv : AuditEnv) (s : VideoAuditState)
    (hrun : run_pipeline init ienv aenv = some s) :
    s.final_status ≠ none
    ∧ (s.final_status = some "FAIL"
        ∨ ∃ j raw, aenv.gen = GenOutcome.parsed j raw
            ∧ s.final_status = some (j.status.getD "FAIL"))
    ∧ ((∀ m, aenv.gen ≠ GenOutcome.raiseOther m) → s.final_report ≠ none)
    ∧ (s.final_report = none → init.final_report = none) := by
  rw [run_pipeline] at hrun
  cases hidx : (index_video_node init ienv).1 with
  | none => rw [hidx] at hrun; exact absurd hrun (by simp)
  | some u1 =>
    rw [hidx] at hrun
    have hs := Option.some.inj hrun
    subst hs
    obtain ⟨hcase, hrep⟩ := audit_update_cases (mergeState init u1) aenv
    refine ⟨?_, ?_, ?_, ?_⟩
    · rcases hcase with h | ⟨j, raw, hg, h⟩ <;>
        rw [mergeState_final_status, h] <;> simp [ow]
    · rcases hcase with h | ⟨j, raw, hg, h⟩
      · exact Or.inl (by rw [mergeState_final_status, h]; rfl)
      · exact Or.inr ⟨j, raw, hg, by rw [mergeState_final_status, h]; rfl⟩
    · intro hno
      rcases hfr : ((compliance_audit_node (mergeState init u1) aenv).1).final_report
        with _ | v
      · obtain ⟨m, hm⟩ := hrep hfr
        exact absurd hm (hno m)
      · rw [mergeState_final_report, hfr]
        simp [ow]
    · intro hnone
      rw [mergeState_final_report, mergeState_final_report] at hnone
      obtain ⟨h2, h1⟩ := ow_eq_none.mp hnone
      exact (ow_eq_none.mp h1).2

/-- C2 witness: the amended characterization at a concrete successful run. -/
theorem pipeline_final_state_characterization_witness :
    ((run_pipeline cexInit cexIEnv witAEnv).getD { video_url := "" }).final_status
      ≠ none :=
  (pipeline_final_state_characterization cexInit cexIEnv witAEnv
    ((run_pipeline cexInit cexIEnv witAEnv).getD { video_url := "" })
    (by decide)).1

end BrandGuardian
